import Mathlib

/-!
Shallow embedding of the Hugo frontmatter MCP server
(`hugo_frontmatter_mcp.py`) for verifying the natural-language
specification against the code.

Modelling conventions:
* YAML metadata values are the closed variant `Val` (string, bool, int,
  list, null, datetime); a document (`Post`) is its metadata association
  list plus its body text (`content`), mirroring `frontmatter.Post`.
* The filesystem is externalized: the outcome the Document Store Adapter
  (`_load_post` / `_save_post`) would produce for a given path is passed
  in as data.  `Except String Post` is the load outcome (error message on
  failure) and `Option String` is the save outcome (`some msg` = save
  fails with that message, `none` = save succeeds).  Each operation
  returns, besides its structured response, the post successfully written
  to the file (`Option Post`, `none` when no write happened).
* A directory walk is modelled by the list of candidate regular files the
  glob enumerates, each a `FileEntry` carrying its path and its load/save
  outcomes.  Console `print` diagnostics are collected in a `printed`
  field of the batch results.
* Python `str.strip()` is rendered as `pyStrip`, Python string
  quoting uses the escape `\x27`.
-/

/-- Metadata value as decoded from YAML frontmatter (Python runtime value). -/
inductive Val where
  | str (s : String)
  | bool (b : Bool)
  | int (n : Int)
  | list (l : List Val)
  | null
  | datetime (s : String)

/-- Python `type(v).__name__` for a metadata value. -/
def Val.typeName : Val → String
  | .str _ => "str"
  | .bool _ => "bool"
  | .int _ => "int"
  | .list _ => "list"
  | .null => "NoneType"
  | .datetime _ => "datetime"

mutual
/-- Python `repr` of a metadata value (list elements are rendered with `repr`). -/
def pyRepr : Val → String
  | .str s => "\x27" ++ s ++ "\x27"
  | .bool b => if b then "True" else "False"
  | .int n => toString n
  | .null => "None"
  | .datetime s => s
  | .list l => "[" ++ pyReprList l ++ "]"

/-- Comma-separated `repr` rendering of a list of values. -/
def pyReprList : List Val → String
  | [] => ""
  | [v] => pyRepr v
  | v :: w :: rest => pyRepr v ++ ", " ++ pyReprList (w :: rest)
end

/-- Python `str` of a metadata value: like `repr` but a top-level string is unquoted. -/
def pyStr : Val → String
  | .str s => s
  | v => pyRepr v

/-- Expected runtime types used by `_set_specific_field` type checks. -/
inductive PyType where
  | str
  | bool

/-- Python `expected_type.__name__`. -/
def PyType.name : PyType → String
  | .str => "str"
  | .bool => "bool"

/-- Python `isinstance(v, t)` for the types the code checks against. -/
def isinstanceOf (v : Val) (t : PyType) : Bool :=
  match t, v with
  | .str, .str _ => true
  | .bool, .bool _ => true
  | _, _ => false

/-- A frontmatter document: metadata mapping plus body text (`frontmatter.Post`). -/
structure Post where
  metadata : List (String × Val)
  content : String

/-- Python `dict.get`: value of the first binding of `k`, if any. -/
def getMeta : List (String × Val) → String → Option Val
  | [], _ => none
  | (k2, v) :: rest, k => if k2 = k then some v else getMeta rest k

/-- Python `dict[k] = v`: overwrite the binding of `k` in place, or append it. -/
def setMeta : List (String × Val) → String → Val → List (String × Val)
  | [], k, v => [(k, v)]
  | (k2, v2) :: rest, k, v =>
      if k2 = k then (k, v) :: rest else (k2, v2) :: setMeta rest k v

/-- Python `v == s` for a string `s`: true exactly on the equal string value. -/
def valEqStr (v : Val) (s : String) : Bool :=
  match v with
  | .str t => t == s
  | _ => false

/-- Python `s in l` for a string `s` and a metadata list `l`. -/
def valMemStr (l : List Val) (s : String) : Bool :=
  l.any (fun v => valEqStr v s)

/-- Number of occurrences of the string value `s` in `l`. -/
def countValStr (l : List Val) (s : String) : Nat :=
  (l.filter (fun v => valEqStr v s)).length

/-- Python `list.remove(s)`: drop the first element equal to the string `s`. -/
def removeFirstStr : List Val → String → List Val
  | [], _ => []
  | v :: rest, s => if valEqStr v s then rest else v :: removeFirstStr rest s

/-- Does `pat` occur at the head of `s`? (helper for Python substring `in`). -/
def leadEq : List Char → List Char → Bool
  | [], _ => true
  | _ :: _, [] => false
  | a :: as, b :: bs => a == b && leadEq as bs

/-- Does `pat` occur as a contiguous segment of `s`? -/
def occursIn (pat : List Char) : List Char → Bool
  | [] => leadEq pat []
  | c :: rest => leadEq pat (c :: rest) || occursIn pat rest

/-- Python `pat in s` substring containment. -/
def strContains (s pat : String) : Bool :=
  occursIn pat.toList s.toList

/-- Python `str.strip()`: drop leading and trailing whitespace.  (Stated over
`String.data` so that it evaluates inside the kernel, unlike `String.trim`.) -/
def pyStrip (s : String) : String :=
  ⟨((s.data.dropWhile Char.isWhitespace).reverse.dropWhile Char.isWhitespace).reverse⟩

/-- Python `Counter[tag] += 1` on an insertion-ordered counter. -/
def counterAdd : List (String × Nat) → String → List (String × Nat)
  | [], s => [(s, 1)]
  | (t, n) :: rest, s =>
      if t = s then (t, n + 1) :: rest else (t, n) :: counterAdd rest s

/-- String elements of a tags list, in order (the ones the tag counter counts). -/
def tagStrs : List Val → List String
  | [] => []
  | .str t :: rest => t :: tagStrs rest
  | _ :: rest => tagStrs rest

/-- Warnings printed for the non-string elements of a tags list, in order. -/
def tagWarnings (path : String) : List Val → List String
  | [] => []
  | .str _ :: rest => tagWarnings path rest
  | v :: rest =>
      ("Warning (list_tags_in_directory): Non-string tag found in " ++ path ++ ": " ++ pyStr v)
        :: tagWarnings path rest

/-- Structured response of `_set_specific_field` and its tool wrappers. -/
inductive SetFieldResult where
  | typeMismatch (msg : String)
  | loadError (msg : String)
  | saveError (msg : String)
  | ok (newValue : Val) (updatedFrontmatter : List (String × Val))

/-- Does the `expected_type is not None and not isinstance(...)` guard fire? -/
def typeCheckFails (expected : Option PyType) (v : Val) : Bool :=
  match expected with
  | some t => !isinstanceOf v t
  | none => false

/-- Embedding of `_set_specific_field` (src lines 86-108): type check, load,
set the field, save.  Second component: the post written on a successful save. -/
def set_specific_field (field_name : String) (field_value : Val)
    (expected_type : Option PyType) (load_res : Except String Post)
    (save_err : Option String) : SetFieldResult × Option Post :=
  if typeCheckFails expected_type field_value then
    (.typeMismatch ("Value for \x27" ++ field_name ++ "\x27 must be of type "
        ++ (match expected_type with | some t => t.name | none => "") ++ ". Got "
        ++ field_value.typeName ++ "."), none)
  else
    match load_res with
    | .error e => (.loadError e, none)
    | .ok post =>
      let post2 : Post := { post with metadata := setMeta post.metadata field_name field_value }
      match save_err with
      | some e => (.saveError e, none)
      | none => (.ok field_value post2.metadata, some post2)

/-- Tool `set_title` (src line 111). -/
def set_title (title : Val) (load_res : Except String Post) (save_err : Option String) :
    SetFieldResult × Option Post :=
  set_specific_field "title" title (some .str) load_res save_err

/-- Tool `set_date` (src line 116). -/
def set_date (date_value : Val) (load_res : Except String Post) (save_err : Option String) :
    SetFieldResult × Option Post :=
  set_specific_field "date" date_value (some .str) load_res save_err

/-- Tool `set_publish_date` (src line 121). -/
def set_publish_date (publish_date_value : Val) (load_res : Except String Post)
    (save_err : Option String) : SetFieldResult × Option Post :=
  set_specific_field "publishDate" publish_date_value (some .str) load_res save_err

/-- Tool `set_description` (src line 126). -/
def set_description (description : Val) (load_res : Except String Post)
    (save_err : Option String) : SetFieldResult × Option Post :=
  set_specific_field "description" description (some .str) load_res save_err

/-- Tool `set_draft_status` (src line 131). -/
def set_draft_status (draft_status : Val) (load_res : Except String Post)
    (save_err : Option String) : SetFieldResult × Option Post :=
  set_specific_field "draft" draft_status (some .bool) load_res save_err

/-- Structured response of `_modify_list_field` and its tool wrappers. -/
inductive ListFieldResult where
  | loadError (msg : String)
  | notAList (msg : String)
  | invalidItem (msg : String)
  | invalidAction (msg : String)
  | noChange (msg : String) (current : List Val) (updatedFrontmatter : List (String × Val))
  | saveError (msg : String)
  | ok (actionVerb : String) (item : String) (updatedFrontmatter : List (String × Val))

/-- Resolution of a list field value (src lines 143-150): absent or `None` →
empty list, list → itself, single string → one-element list, anything else →
error with the offending type name. -/
def resolveList : Option Val → Except String (List Val)
  | none => .ok []
  | some .null => .ok []
  | some (.list l) => .ok l
  | some (.str s) => .ok [.str s]
  | some v => .error v.typeName

/-- Shared save-and-respond tail of `_modify_list_field` (src lines 171-184). -/
def finishListSave (post : Post) (field_name : String) (new_list : List Val)
    (action_verb : String) (item_value : String) (save_err : Option String) :
    ListFieldResult × Option Post :=
  let post2 : Post := { post with metadata := setMeta post.metadata field_name (.list new_list) }
  match save_err with
  | some e => (.saveError e, none)
  | none => (.ok action_verb item_value post2.metadata, some post2)

/-- Embedding of `_modify_list_field` (src lines 135-184). -/
def modify_list_field (action : String) (field_name : String) (item_value : String)
    (load_res : Except String Post) (save_err : Option String) :
    ListFieldResult × Option Post :=
  match load_res with
  | .error e => (.loadError e, none)
  | .ok post =>
    match resolveList (getMeta post.metadata field_name) with
    | .error tyName =>
        (.notAList ("Field \x27" ++ field_name ++ "\x27 exists but is not a list (type: "
            ++ tyName ++ "). Cannot modify."), none)
    | .ok current_list =>
      if action = "add" then
        if valMemStr current_list item_value then
          (.noChange ("Item \x27" ++ item_value ++ "\x27 already exists in \x27"
              ++ field_name ++ "\x27. No changes made.") current_list post.metadata, none)
        else
          finishListSave post field_name (current_list ++ [.str item_value]) "added"
            item_value save_err
      else if action = "remove" then
        if valMemStr current_list item_value then
          finishListSave post field_name (removeFirstStr current_list item_value) "removed"
            item_value save_err
        else
          (.noChange ("Item \x27" ++ item_value ++ "\x27 not found in \x27"
              ++ field_name ++ "\x27. No changes made.") current_list post.metadata, none)
      else
        (.invalidAction "Invalid action for _modify_list_field", none)

/-- Tool `add_tag` (src lines 187-191). -/
def add_tag (tag_to_add : String) (load_res : Except String Post) (save_err : Option String) :
    ListFieldResult × Option Post :=
  if pyStrip tag_to_add = "" then (.invalidItem "Tag to add must be a non-empty string.", none)
  else modify_list_field "add" "tags" tag_to_add load_res save_err

/-- Tool `remove_tag` (src lines 194-198). -/
def remove_tag (tag_to_remove : String) (load_res : Except String Post)
    (save_err : Option String) : ListFieldResult × Option Post :=
  if pyStrip tag_to_remove = "" then (.invalidItem "Tag to remove must be a non-empty string.", none)
  else modify_list_field "remove" "tags" tag_to_remove load_res save_err

/-- Tool `add_image` (src lines 201-205). -/
def add_image (image_path_to_add : String) (load_res : Except String Post)
    (save_err : Option String) : ListFieldResult × Option Post :=
  if pyStrip image_path_to_add = "" then
    (.invalidItem "Image path to add must be a non-empty string.", none)
  else modify_list_field "add" "images" image_path_to_add load_res save_err

/-- Tool `remove_image` (src lines 208-212). -/
def remove_image (image_path_to_remove : String) (load_res : Except String Post)
    (save_err : Option String) : ListFieldResult × Option Post :=
  if pyStrip image_path_to_remove = "" then
    (.invalidItem "Image path to remove must be a non-empty string.", none)
  else modify_list_field "remove" "images" image_path_to_remove load_res save_err

/-- A candidate regular file enumerated by the directory glob, with the
load/save outcomes the Document Store Adapter produces for it. -/
structure FileEntry where
  path : String
  load_res : Except String Post
  save_err : Option String

/-- Result of `list_tags_in_directory` (directory-level fields aside). -/
structure ListTagsResult where
  files_processed : Nat
  files_with_tags : Nat
  tag_counts : List (String × Nat)
  printed : List String

/-- Per-file contribution of the `list_tags_in_directory` loop body
(src lines 230-244): files-with-tags increment, string tags to count,
console diagnostics. -/
structure ListTagsDelta where
  with_tags : Nat
  tag_items : List String
  prints : List String

/-- Loop body of `list_tags_in_directory` for one file (src lines 230-244). -/
def list_tags_file (f : FileEntry) : ListTagsDelta :=
  match f.load_res with
  | .error e =>
      ⟨0, [], ["Skipping file (list_tags_in_directory) due to error: " ++ f.path ++ " - " ++ e]⟩
  | .ok post =>
    match getMeta post.metadata "tags" with
    | some (.list l) => ⟨1, tagStrs l, tagWarnings f.path l⟩
    | _ => ⟨0, [], []⟩

/-- Accumulation step of `list_tags_in_directory` (src lines 230-244). -/
def list_tags_step (acc : ListTagsResult) (f : FileEntry) : ListTagsResult :=
  let d := list_tags_file f
  { files_processed := acc.files_processed + 1,
    files_with_tags := acc.files_with_tags + d.with_tags,
    tag_counts := List.foldl counterAdd acc.tag_counts d.tag_items,
    printed := acc.printed ++ d.prints }

/-- Tool `list_tags_in_directory` (src lines 217-252), walk portion: the
directory-validation guards act before any walk and are not modelled. -/
def list_tags_in_directory (files : List FileEntry) : ListTagsResult :=
  files.foldl list_tags_step ⟨0, 0, [], []⟩

/-- Result of `find_posts_by_tag` (directory-level fields aside). -/
structure FindPostsResult where
  files_processed : Nat
  matching_files : List String
  printed : List String

/-- Per-file contribution of the `find_posts_by_tag` loop body. -/
structure FindPostsDelta where
  matched : List String
  prints : List String

/-- Loop body of `find_posts_by_tag` for one file (src lines 269-279):
only a `tags` value that is a list can match. -/
def find_posts_file (tag_to_find : String) (f : FileEntry) : FindPostsDelta :=
  match f.load_res with
  | .error e =>
      ⟨[], ["Skipping file (find_posts_by_tag) due to error: " ++ f.path ++ " - " ++ e]⟩
  | .ok post =>
    match getMeta post.metadata "tags" with
    | some (.list l) => if valMemStr l tag_to_find then ⟨[f.path], []⟩ else ⟨[], []⟩
    | _ => ⟨[], []⟩

/-- Accumulation step of `find_posts_by_tag` (src lines 269-279). -/
def find_posts_step (tag_to_find : String) (acc : FindPostsResult) (f : FileEntry) :
    FindPostsResult :=
  let d := find_posts_file tag_to_find f
  { files_processed := acc.files_processed + 1,
    matching_files := acc.matching_files ++ d.matched,
    printed := acc.printed ++ d.prints }

/-- Walk portion of `find_posts_by_tag` (src lines 269-287). -/
def find_posts_walk (tag_to_find : String) (files : List FileEntry) : FindPostsResult :=
  files.foldl (find_posts_step tag_to_find) ⟨0, [], []⟩

/-- Tool `find_posts_by_tag` (src lines 255-287) with its tag guard; the
directory-validation guards are not modelled. -/
def find_posts_by_tag (tag_to_find : String) (files : List FileEntry) :
    Except String FindPostsResult :=
  if pyStrip tag_to_find = "" then .error "Tag to find must be a non-empty string."
  else .ok (find_posts_walk tag_to_find files)

/-- Result of `rename_tag_in_directory` (directory-level fields aside);
`errors` pairs each failing file path with its error message, `writes`
records each successful file write. -/
structure RenameResult where
  files_scanned : Nat
  modified_files : List String
  errors : List (String × String)
  printed : List String
  writes : List (String × Post)

/-- Per-file contribution of the `rename_tag_in_directory` loop body. -/
structure RenameDelta where
  modified : List String
  errs : List (String × String)
  prints : List String
  writes : List (String × Post)

/-- Loop body of `rename_tag_in_directory` for one file (src lines 309-345):
a list `tags` containing `old_tag` is rewritten with all occurrences of
`old_tag` removed and `new_tag` appended only if absent; a scalar string
`tags` is rewritten to `[new_tag]` when it equals `old_tag` (guarded by a
substring test on its `str()` rendering). -/
def rename_file (old_tag new_tag : String) (f : FileEntry) : RenameDelta :=
  match f.load_res with
  | .error e =>
      ⟨[], [(f.path, e)], ["Skipping file (rename_tag) due to load error: " ++ f.path], []⟩
  | .ok post =>
    match getMeta post.metadata "tags" with
    | some (.list tags_list) =>
        if valMemStr tags_list old_tag then
          let tags2 := tags_list.filter (fun t => !valEqStr t old_tag)
          let tags3 := if valMemStr tags2 new_tag then tags2 else tags2 ++ [.str new_tag]
          let post2 : Post := { post with metadata := setMeta post.metadata "tags" (.list tags3) }
          match f.save_err with
          | some e => ⟨[], [(f.path, e)], ["Error saving file (rename_tag): " ++ f.path], []⟩
          | none => ⟨[f.path], [], [], [(f.path, post2)]⟩
        else ⟨[], [], [], []⟩
    | tagsOpt =>
        if strContains (pyStr (tagsOpt.getD (.str ""))) old_tag then
          match tagsOpt with
          | some v =>
              if valEqStr v old_tag then
                let post2 : Post :=
                  { post with metadata := setMeta post.metadata "tags" (.list [.str new_tag]) }
                match f.save_err with
                | some e => ⟨[], [(f.path, e)], [], []⟩
                | none => ⟨[f.path], [], [], [(f.path, post2)]⟩
              else ⟨[], [], [], []⟩
          | none => ⟨[], [], [], []⟩
        else ⟨[], [], [], []⟩

/-- Accumulation step of `rename_tag_in_directory` (src lines 309-345). -/
def rename_step (old_tag new_tag : String) (acc : RenameResult) (f : FileEntry) :
    RenameResult :=
  let d := rename_file old_tag new_tag f
  { files_scanned := acc.files_scanned + 1,
    modified_files := acc.modified_files ++ d.modified,
    errors := acc.errors ++ d.errs,
    printed := acc.printed ++ d.prints,
    writes := acc.writes ++ d.writes }

/-- Walk portion of `rename_tag_in_directory` (src lines 309-355). -/
def rename_walk (old_tag new_tag : String) (files : List FileEntry) : RenameResult :=
  files.foldl (rename_step old_tag new_tag) ⟨0, [], [], [], []⟩

/-- Overall outcome of `rename_tag_in_directory`: rejected input, the
equal-tags no-op message, or a completed walk. -/
inductive RenameOutcome where
  | badInput (msg : String)
  | sameTags (msg : String)
  | done (r : RenameResult)

/-- Tool `rename_tag_in_directory` (src lines 290-355) with its tag guards;
the directory-validation guards are not modelled. -/
def rename_tag_in_directory (old_tag new_tag : String) (files : List FileEntry) :
    RenameOutcome :=
  if pyStrip old_tag = "" then .badInput "Old tag must be a non-empty string."
  else if pyStrip new_tag = "" then .badInput "New tag must be a non-empty string."
  else if old_tag = new_tag then
    .sameTags "Old and new tags are the same. No changes will be made."
  else .done (rename_walk old_tag new_tag files)

/-- One entry of `invalid_date_entries` in `validate_date_formats`. -/
structure InvalidEntry where
  file_path : String
  value : String
  error : String
deriving DecidableEq

/-- Result of `validate_date_formats` (directory-level fields aside); the
`writes` field records file writes, of which this read-only audit makes none. -/
structure ValidateResult where
  files_scanned : Nat
  files_with_field : Nat
  invalid_date_entries : List InvalidEntry
  printed : List String
  writes : List (String × Post)

/-- Per-file contribution of the `validate_date_formats` loop body. -/
structure ValidateDelta where
  with_field : Nat
  entries : List InvalidEntry
  prints : List String

/-- Loop body of `validate_date_formats` for one file (src lines 376-410).
`strptime v fmt` models `datetime.strptime`: `none` when `v` parses against
`fmt`, `some msg` with the `ValueError` message when it does not. -/
def validate_file (strptime : String → String → Option String)
    (field_name expected_format : String) (f : FileEntry) : ValidateDelta :=
  match f.load_res with
  | .error e =>
      ⟨0, [⟨f.path, "N/A - Load Error", "File load error: " ++ e⟩],
        ["Skipping file (validate_date) due to error: " ++ f.path ++ " - " ++ e]⟩
  | .ok post =>
    match getMeta post.metadata field_name with
    | none => ⟨0, [], []⟩
    | some v =>
      match v with
      | .str s =>
          match strptime s expected_format with
          | none => ⟨1, [], []⟩
          | some e => ⟨1, [⟨f.path, s, e⟩], []⟩
      | .datetime _ => ⟨1, [], []⟩
      | other =>
          ⟨1, [⟨f.path, pyStr other,
              "Field value is not a string or date object (type: " ++ other.typeName ++ ")"⟩], []⟩

/-- Accumulation step of `validate_date_formats` (src lines 376-410). -/
def validate_step (strptime : String → String → Option String)
    (field_name expected_format : String) (acc : ValidateResult) (f : FileEntry) :
    ValidateResult :=
  let d := validate_file strptime field_name expected_format f
  { files_scanned := acc.files_scanned + 1,
    files_with_field := acc.files_with_field + d.with_field,
    invalid_date_entries := acc.invalid_date_entries ++ d.entries,
    printed := acc.printed ++ d.prints,
    writes := acc.writes }

/-- Tool `validate_date_formats` (src lines 358-420), walk portion: the
directory-validation guards act before any walk and are not modelled. -/
def validate_date_formats (strptime : String → String → Option String)
    (field_name expected_format : String) (files : List FileEntry) : ValidateResult :=
  files.foldl (validate_step strptime field_name expected_format) ⟨0, 0, [], [], []⟩

/-- Sum of a per-file numeric contribution over a walk. -/
def sumWith (g : FileEntry → Nat) : List FileEntry → Nat
  | [] => 0
  | f :: rest => g f + sumWith g rest

/-- Concatenation of a per-file list contribution over a walk. -/
def collectAll {α : Type} (g : FileEntry → List α) : List FileEntry → List α
  | [] => []
  | f :: rest => g f ++ collectAll g rest

/-- Frame property of a write effect: the written post (if any) keeps the
body and every metadata key other than `target` of the original post. -/
def framePreserved (written : Option Post) (orig : Post) (target : String) : Prop :=
  ∀ p2, written = some p2 →
    p2.content = orig.content ∧
    ∀ k, k ≠ target → getMeta p2.metadata k = getMeta orig.metadata k

/-- Tag list produced by the rename rewrite on a list that contains the old
tag (src lines 323-326): all occurrences of `old` removed, `new` appended
only if not already present among the remaining tags. -/
def renameTags (old new : String) (l : List Val) : List Val :=
  let l2 := l.filter (fun t => !valEqStr t old)
  if valMemStr l2 new then l2 else l2 ++ [Val.str new]

/-- Sample well-formed post used by concrete witnesses. -/
def wPost : Post :=
  ⟨[("title", Val.str "Old"), ("draft", Val.bool true),
    ("tags", Val.list [Val.str "a", Val.str "b"])], "Body text."⟩

/-- Sample well-loading file entry used by concrete witnesses. -/
def wGood : FileEntry := ⟨"/c/good.md", .ok wPost, none⟩

/-- Sample file entry whose load fails, used by concrete witnesses. -/
def wBad : FileEntry := ⟨"/c/bad.md", .error "boom", none⟩

/-- Sample file entry that loads but whose save fails, used by witnesses. -/
def wSaveFail : FileEntry := ⟨"/c/savefail.md", .ok wPost, some "disk full"⟩

theorem sumWith_append (g : FileEntry → Nat) (xs ys : List FileEntry) :
    sumWith g (xs ++ ys) = sumWith g xs + sumWith g ys := by
  induction xs with
  | nil => simp [sumWith]
  | cons f rest ih => simp [sumWith, ih, Nat.add_assoc]

theorem collectAll_append {α : Type} (g : FileEntry → List α) (xs ys : List FileEntry) :
    collectAll g (xs ++ ys) = collectAll g xs ++ collectAll g ys := by
  induction xs with
  | nil => simp [collectAll]
  | cons f rest ih => simp [collectAll, ih]

theorem list_tags_foldl (files : List FileEntry) (acc : ListTagsResult) :
    List.foldl list_tags_step acc files =
      { files_processed := acc.files_processed + files.length,
        files_with_tags :=
          acc.files_with_tags + sumWith (fun f => (list_tags_file f).with_tags) files,
        tag_counts :=
          List.foldl counterAdd acc.tag_counts
            (collectAll (fun f => (list_tags_file f).tag_items) files),
        printed := acc.printed ++ collectAll (fun f => (list_tags_file f).prints) files } := by
  induction files generalizing acc with
  | nil => simp [sumWith, collectAll]
  | cons f rest ih =>
      rw [List.foldl_cons, ih]
      simp only [list_tags_step, List.length_cons, sumWith, collectAll,
        List.foldl_append, List.append_assoc, ListTagsResult.mk.injEq]
      refine ⟨by omega, by omega, by trivial, by trivial⟩

theorem find_posts_foldl (t : String) (files : List FileEntry) (acc : FindPostsResult) :
    List.foldl (find_posts_step t) acc files =
      { files_processed := acc.files_processed + files.length,
        matching_files :=
          acc.matching_files ++ collectAll (fun f => (find_posts_file t f).matched) files,
        printed := acc.printed ++ collectAll (fun f => (find_posts_file t f).prints) files } := by
  induction files generalizing acc with
  | nil => simp [collectAll]
  | cons f rest ih =>
      rw [List.foldl_cons, ih]
      simp only [find_posts_step, List.length_cons, collectAll,
        List.append_assoc, FindPostsResult.mk.injEq]
      refine ⟨by omega, by trivial, by trivial⟩

theorem rename_foldl (o n : String) (files : List FileEntry) (acc : RenameResult) :
    List.foldl (rename_step o n) acc files =
      { files_scanned := acc.files_scanned + files.length,
        modified_files :=
          acc.modified_files ++ collectAll (fun f => (rename_file o n f).modified) files,
        errors := acc.errors ++ collectAll (fun f => (rename_file o n f).errs) files,
        printed := acc.printed ++ collectAll (fun f => (rename_file o n f).prints) files,
        writes := acc.writes ++ collectAll (fun f => (rename_file o n f).writes) files } := by
  induction files generalizing acc with
  | nil => simp [collectAll]
  | cons f rest ih =>
      rw [List.foldl_cons, ih]
      simp only [rename_step, List.length_cons, collectAll,
        List.append_assoc, RenameResult.mk.injEq]
      refine ⟨by omega, by trivial, by trivial, by trivial, by trivial⟩

theorem validate_foldl (sp : String → String → Option String) (fld fmt : String)
    (files : List FileEntry) (acc : ValidateResult) :
    List.foldl (validate_step sp fld fmt) acc files =
      { files_scanned := acc.files_scanned + files.length,
        files_with_field :=
          acc.files_with_field + sumWith (fun f => (validate_file sp fld fmt f).with_field) files,
        invalid_date_entries :=
          acc.invalid_date_entries
            ++ collectAll (fun f => (validate_file sp fld fmt f).entries) files,
        printed := acc.printed ++ collectAll (fun f => (validate_file sp fld fmt f).prints) files,
        writes := acc.writes } := by
  induction files generalizing acc with
  | nil => simp [sumWith, collectAll]
  | cons f rest ih =>
      rw [List.foldl_cons, ih]
      simp only [validate_step, List.length_cons, sumWith, collectAll,
        List.append_assoc, ValidateResult.mk.injEq]
      refine ⟨by omega, by omega, by trivial, by trivial, by trivial⟩

theorem list_tags_file_error (f : FileEntry) (e : String) (h : f.load_res = .error e) :
    list_tags_file f =
      ⟨0, [], ["Skipping file (list_tags_in_directory) due to error: " ++ f.path ++ " - " ++ e]⟩ := by
  simp [list_tags_file, h]

theorem find_posts_file_error (t : String) (f : FileEntry) (e : String)
    (h : f.load_res = .error e) :
    find_posts_file t f =
      ⟨[], ["Skipping file (find_posts_by_tag) due to error: " ++ f.path ++ " - " ++ e]⟩ := by
  simp [find_posts_file, h]

theorem rename_file_error (o n : String) (f : FileEntry) (e : String)
    (h : f.load_res = .error e) :
    rename_file o n f =
      ⟨[], [(f.path, e)], ["Skipping file (rename_tag) due to load error: " ++ f.path], []⟩ := by
  simp [rename_file, h]

theorem validate_file_error (sp : String → String → Option String) (fld fmt : String)
    (f : FileEntry) (e : String) (h : f.load_res = .error e) :
    validate_file sp fld fmt f =
      ⟨0, [⟨f.path, "N/A - Load Error", "File load error: " ++ e⟩],
        ["Skipping file (validate_date) due to error: " ++ f.path ++ " - " ++ e]⟩ := by
  simp [validate_file, h]

theorem leadEq_self (l : List Char) : leadEq l l = true := by
  induction l with
  | nil => rfl
  | cons c rest ih => simp [leadEq, ih]

theorem occursIn_self (l : List Char) : occursIn l l = true := by
  cases l with
  | nil => rfl
  | cons c rest => simp [occursIn, leadEq_self]

theorem strContains_self (s : String) : strContains s s = true := by
  simp [strContains, occursIn_self]

theorem getMeta_setMeta_self (m : List (String × Val)) (k : String) (v : Val) :
    getMeta (setMeta m k v) k = some v := by
  induction m with
  | nil => simp [setMeta, getMeta]
  | cons kv rest ih =>
      obtain ⟨k2, v2⟩ := kv
      by_cases h : k2 = k
      · simp [setMeta, getMeta, h]
      · simp [setMeta, getMeta, h, ih]

theorem getMeta_setMeta_ne (m : List (String × Val)) (k k2 : String) (v : Val)
    (h : k2 ≠ k) : getMeta (setMeta m k v) k2 = getMeta m k2 := by
  induction m with
  | nil => simp [setMeta, getMeta, Ne.symm h]
  | cons kv rest ih =>
      obtain ⟨k3, v3⟩ := kv
      by_cases h3 : k3 = k
      · subst h3
        simp [setMeta, getMeta, Ne.symm h]
      · by_cases h2 : k3 = k2
        · subst h2
          simp [setMeta, getMeta, h3, h]
        · simp [setMeta, getMeta, h3, h2, ih]

theorem countValStr_append (a b : List Val) (s : String) :
    countValStr (a ++ b) s = countValStr a s + countValStr b s := by
  simp [countValStr, List.filter_append]

theorem valEqStr_str (t s : String) : valEqStr (.str t) s = (t == s) := rfl

theorem valEqStr_eq_true_iff (v : Val) (s : String) :
    valEqStr v s = true ↔ v = .str s := by
  cases v <;> simp [valEqStr]

theorem countValStr_filter_keep (l : List Val) (p : Val → Bool) (t : String)
    (hp : p (.str t) = true) : countValStr (l.filter p) t = countValStr l t := by
  have hfun : ∀ v, (valEqStr v t && p v) = valEqStr v t := by
    intro v
    by_cases hv : valEqStr v t = true
    · have hvt := (valEqStr_eq_true_iff v t).mp hv
      subst hvt
      simp [hv, hp]
    · simp only [Bool.not_eq_true] at hv
      simp [hv]
  simp only [countValStr, ← List.countP_eq_length_filter]
  rw [List.countP_filter]
  simp only [hfun]

theorem countValStr_filter_out (l : List Val) (old : String) :
    countValStr (l.filter (fun v => !valEqStr v old)) old = 0 := by
  induction l with
  | nil => rfl
  | cons v rest ih =>
      by_cases hv : valEqStr v old = true
      · simp [List.filter_cons, hv, ih]
      · simp only [Bool.not_eq_true] at hv
        simp [List.filter_cons, hv, countValStr, List.filter, ih]

theorem countValStr_pos_iff (l : List Val) (s : String) :
    valMemStr l s = true ↔ 0 < countValStr l s := by
  induction l with
  | nil => simp [valMemStr, countValStr]
  | cons v rest ih =>
      by_cases hv : valEqStr v s = true
      · simp [valMemStr, countValStr, List.filter_cons, hv]
      · simp [valMemStr, countValStr, List.filter_cons, hv] at *
        exact ih

theorem set_specific_field_written (fn : String) (v : Val) (ety : Option PyType)
    (post : Post) (se : Option String) :
    framePreserved (set_specific_field fn v ety (.ok post) se).2 post fn := by
  intro p2 h
  simp only [set_specific_field] at h
  by_cases htc : typeCheckFails ety v = true
  · rw [if_pos htc] at h
    simp at h
  · rw [if_neg htc] at h
    cases se with
    | some e => simp at h
    | none =>
        simp at h
        subst h
        exact ⟨rfl, fun k hk => getMeta_setMeta_ne _ _ _ _ hk⟩

theorem finishListSave_written (post : Post) (fn : String) (nl : List Val)
    (verb item : String) (se : Option String) :
    framePreserved (finishListSave post fn nl verb item se).2 post fn := by
  intro p2 h
  simp only [finishListSave] at h
  cases se with
  | some e => simp at h
  | none =>
      simp at h
      subst h
      exact ⟨rfl, fun k hk => getMeta_setMeta_ne _ _ _ _ hk⟩

theorem modify_list_field_written (action fn item : String) (post : Post)
    (se : Option String) :
    framePreserved (modify_list_field action fn item (.ok post) se).2 post fn := by
  intro p2 h
  simp only [modify_list_field] at h
  cases hres : resolveList (getMeta post.metadata fn) with
  | error ty =>
      simp only [hres] at h
      simp at h
  | ok cur =>
      simp only [hres] at h
      by_cases ha : action = "add"
      · rw [if_pos ha] at h
        by_cases hm : valMemStr cur item = true
        · rw [if_pos hm] at h
          simp at h
        · rw [if_neg hm] at h
          exact finishListSave_written post fn _ _ _ se p2 h
      · rw [if_neg ha] at h
        by_cases hr : action = "remove"
        · rw [if_pos hr] at h
          by_cases hm : valMemStr cur item = true
          · rw [if_pos hm] at h
            exact finishListSave_written post fn _ _ _ se p2 h
          · rw [if_neg hm] at h
            simp at h
        · rw [if_neg hr] at h
          simp at h

theorem valMemStr_cons_tail (v : Val) (rest : List Val) (s : String)
    (h : valMemStr (v :: rest) s = true) (hv : valEqStr v s = false) :
    valMemStr rest s = true := by
  simp [valMemStr, List.any_cons, hv] at h
  simp [valMemStr, h]

theorem removeFirstStr_count (l : List Val) (s : String) (h : valMemStr l s = true) :
    countValStr (removeFirstStr l s) s = countValStr l s - 1 := by
  induction l with
  | nil => simp [valMemStr] at h
  | cons v rest ih =>
      by_cases hv : valEqStr v s = true
      · simp [removeFirstStr, hv, countValStr, List.filter_cons]
      · have hv2 : valEqStr v s = false := by simpa using hv
        have h2 := valMemStr_cons_tail v rest s h hv2
        have h4 := ih h2
        have hrw : removeFirstStr (v :: rest) s = v :: removeFirstStr rest s := by
          simp [removeFirstStr, hv2]
        rw [hrw]
        have hc1 : countValStr (v :: removeFirstStr rest s) s
            = countValStr (removeFirstStr rest s) s := by
          simp [countValStr, List.filter_cons, hv2]
        have hc2 : countValStr (v :: rest) s = countValStr rest s := by
          simp [countValStr, List.filter_cons, hv2]
        rw [hc1, hc2, h4]

theorem modify_remove_mem (fld item : String) (p : Post) (l : List Val)
    (ht : getMeta p.metadata fld = some (.list l)) (hm : valMemStr l item = true) :
    modify_list_field "remove" fld item (.ok p) none
      = (.ok "removed" item (setMeta p.metadata fld (.list (removeFirstStr l item))),
         some { p with metadata := setMeta p.metadata fld (.list (removeFirstStr l item)) }) := by
  simp [modify_list_field, ht, resolveList, hm, finishListSave]

/-- C4 counterexample: on `tags: [a, a]`, `remove_tag p a` writes `tags: [a]` —
one occurrence of the removed item survives, so the remove action does NOT
remove all occurrences of the item. -/
theorem C4_counterexample :
    (remove_tag "a" (Except.ok ⟨[("tags", Val.list [Val.str "a", Val.str "a"])], "Body"⟩)
        none).2
      = some ⟨[("tags", Val.list [Val.str "a"])], "Body"⟩
    ∧ valMemStr [Val.str "a"] "a" = true :=
  ⟨rfl, rfl⟩

/-- C4 (amended): for every file whose list field contains the item, the remove
action of the list-field mutator (`remove_tag`, `remove_image`) removes exactly
the FIRST occurrence of that exact string (not all occurrences), then writes
the file and returns success; the occurrence count drops by exactly one. -/
theorem C4_remove_first_occurrence (item : String) (hItem : ¬ pyStrip item = "")
    (posta postb : Post) (la lb : List Val)
    (hta : getMeta posta.metadata "tags" = some (.list la)) (hma : valMemStr la item = true)
    (htb : getMeta postb.metadata "images" = some (.list lb)) (hmb : valMemStr lb item = true) :
    remove_tag item (.ok posta) none
      = (.ok "removed" item (setMeta posta.metadata "tags" (.list (removeFirstStr la item))),
         some { posta with
                  metadata := setMeta posta.metadata "tags" (.list (removeFirstStr la item)) })
    ∧ remove_image item (.ok postb) none
      = (.ok "removed" item (setMeta postb.metadata "images" (.list (removeFirstStr lb item))),
         some { postb with
                  metadata := setMeta postb.metadata "images" (.list (removeFirstStr lb item)) })
    ∧ countValStr (removeFirstStr la item) item = countValStr la item - 1
    ∧ countValStr (removeFirstStr lb item) item = countValStr lb item - 1 := by
  refine ⟨?_, ?_, removeFirstStr_count la item hma, removeFirstStr_count lb item hmb⟩
  · simp only [remove_tag, if_neg hItem]
    exact modify_remove_mem "tags" item posta la hta hma
  · simp only [remove_image, if_neg hItem]
    exact modify_remove_mem "images" item postb lb htb hmb

/-- C4 witness: the amended theorem applied to `tags: [a, b]` / `images: [a]`
with item `a`. -/
theorem C4_witness :
    remove_tag "a" (.ok ⟨[("tags", Val.list [Val.str "a", Val.str "b"])], "B"⟩) none
      = (.ok "removed" "a"
           (setMeta [("tags", Val.list [Val.str "a", Val.str "b"])] "tags"
             (.list (removeFirstStr [Val.str "a", Val.str "b"] "a"))),
         some ⟨setMeta [("tags", Val.list [Val.str "a", Val.str "b"])] "tags"
             (.list (removeFirstStr [Val.str "a", Val.str "b"] "a")), "B"⟩)
    ∧ remove_image "a" (.ok ⟨[("images", Val.list [Val.str "a"])], "B"⟩) none
      = (.ok "removed" "a"
           (setMeta [("images", Val.list [Val.str "a"])] "images"
             (.list (removeFirstStr [Val.str "a"] "a"))),
         some ⟨setMeta [("images", Val.list [Val.str "a"])] "images"
             (.list (removeFirstStr [Val.str "a"] "a")), "B"⟩)
    ∧ countValStr (removeFirstStr [Val.str "a", Val.str "b"] "a") "a"
        = countValStr [Val.str "a", Val.str "b"] "a" - 1
    ∧ countValStr (removeFirstStr [Val.str "a"] "a") "a"
        = countValStr [Val.str "a"] "a" - 1 :=
  C4_remove_first_occurrence "a" (by decide)
    ⟨[("tags", Val.list [Val.str "a", Val.str "b"])], "B"⟩
    ⟨[("images", Val.list [Val.str "a"])], "B"⟩
    [Val.str "a", Val.str "b"] [Val.str "a"] rfl rfl rfl rfl

/-- C6: Frame invariant — for every single-file mutating operation
(`set_title`/`set_date`/`set_publish_date`/`set_description`/`set_draft_status`,
`add_tag`/`remove_tag`/`add_image`/`remove_image`) that writes the file, the
body and every metadata key other than the operation's target field are
preserved verbatim in the written post; only the target field changes. -/
theorem C6_frame_invariant (post : Post) (v : Val) (item : String) (se : Option String) :
    framePreserved (set_title v (.ok post) se).2 post "title"
    ∧ framePreserved (set_date v (.ok post) se).2 post "date"
    ∧ framePreserved (set_publish_date v (.ok post) se).2 post "publishDate"
    ∧ framePreserved (set_description v (.ok post) se).2 post "description"
    ∧ framePreserved (set_draft_status v (.ok post) se).2 post "draft"
    ∧ framePreserved (add_tag item (.ok post) se).2 post "tags"
    ∧ framePreserved (remove_tag item (.ok post) se).2 post "tags"
    ∧ framePreserved (add_image item (.ok post) se).2 post "images"
    ∧ framePreserved (remove_image item (.ok post) se).2 post "images" := by
  refine ⟨set_specific_field_written _ _ _ _ _, set_specific_field_written _ _ _ _ _,
    set_specific_field_written _ _ _ _ _, set_specific_field_written _ _ _ _ _,
    set_specific_field_written _ _ _ _ _, ?_, ?_, ?_, ?_⟩
  all_goals
    intro p2 h
    by_cases ht : pyStrip item = ""
    · simp [add_tag, remove_tag, add_image, remove_image, ht] at h
    · simp only [add_tag, remove_tag, add_image, remove_image, if_neg ht] at h
      exact modify_list_field_written _ _ _ _ _ p2 h

/-- C6 witness: a successful `set_title` write on a concrete post, plus the
frame invariant instantiated there for all nine operations. -/
theorem C6_witness :
    (set_title (Val.str "New") (.ok wPost) none).2
      = some ⟨[("title", Val.str "New"), ("draft", Val.bool true),
               ("tags", Val.list [Val.str "a", Val.str "b"])], "Body text."⟩
    ∧ (framePreserved (set_title (Val.str "New") (.ok wPost) none).2 wPost "title"
       ∧ framePreserved (set_date (Val.str "New") (.ok wPost) none).2 wPost "date"
       ∧ framePreserved (set_publish_date (Val.str "New") (.ok wPost) none).2 wPost "publishDate"
       ∧ framePreserved (set_description (Val.str "New") (.ok wPost) none).2 wPost "description"
       ∧ framePreserved (set_draft_status (Val.str "New") (.ok wPost) none).2 wPost "draft"
       ∧ framePreserved (add_tag "x" (.ok wPost) none).2 wPost "tags"
       ∧ framePreserved (remove_tag "x" (.ok wPost) none).2 wPost "tags"
       ∧ framePreserved (add_image "x" (.ok wPost) none).2 wPost "images"
       ∧ framePreserved (remove_image "x" (.ok wPost) none).2 wPost "images") :=
  ⟨rfl, C6_frame_invariant wPost (Val.str "New") "x" none⟩

/-- C8: Type enforcement — when the supplied value fails the `isinstance`
check of a typed setter, the call returns a type-mismatch error, performs no
write, and its outcome is independent of the state of the file (no file access
is needed); in particular `set_draft_status` on any string value fails so. -/
theorem C8_type_enforcement (fn : String) (v : Val) (ty : PyType)
    (lr lr2 : Except String Post) (se se2 : Option String) (s : String) :
    (isinstanceOf v ty = false →
      set_specific_field fn v (some ty) lr se
        = (.typeMismatch ("Value for \x27" ++ fn ++ "\x27 must be of type "
            ++ ty.name ++ ". Got " ++ v.typeName ++ "."), none)
      ∧ set_specific_field fn v (some ty) lr se = set_specific_field fn v (some ty) lr2 se2)
    ∧ set_draft_status (Val.str s) lr se
        = (.typeMismatch ("Value for \x27draft\x27 must be of type bool. Got str."), none) := by
  constructor
  · intro h
    have htc : typeCheckFails (some ty) v = true := by simp [typeCheckFails, h]
    constructor
    · simp [set_specific_field, htc]
    · simp [set_specific_field, htc]
  · rfl

/-- C8 witness: `set_draft_status(p, "yes")` — a string where a boolean is
expected — fails with the type-mismatch error, with no write, identically on a
loadable file and on a missing file. -/
theorem C8_witness :
    (set_specific_field "draft" (Val.str "yes") (some PyType.bool) (.ok wPost) none
        = (.typeMismatch ("Value for \x27draft\x27 must be of type bool. Got str."), none)
      ∧ set_specific_field "draft" (Val.str "yes") (some PyType.bool) (.ok wPost) none
        = set_specific_field "draft" (Val.str "yes") (some PyType.bool)
            (.error "File not found: /c/missing.md") (some "disk full"))
    ∧ set_draft_status (Val.str "yes") (.ok wPost) none
        = (.typeMismatch ("Value for \x27draft\x27 must be of type bool. Got str."), none) :=
  ⟨(C8_type_enforcement "draft" (Val.str "yes") PyType.bool (.ok wPost)
      (.error "File not found: /c/missing.md") none (some "disk full") "yes").1 rfl,
   (C8_type_enforcement "draft" (Val.str "yes") PyType.bool (.ok wPost)
      (.error "File not found: /c/missing.md") none (some "disk full") "yes").2⟩

/-- C7 counterexample: `x = " "` is a non-empty string, is present in the
resolved tags list `[" "]`, yet `add_tag` returns the invalid-item error, not
a no-op success; likewise `remove_tag " "` on a file without that tag errors
instead of no-opping (the wrappers reject any whitespace-only string). -/
theorem C7_counterexample :
    ((" " : String) ≠ "")
    ∧ valMemStr [Val.str " "] " " = true
    ∧ add_tag " " (.ok ⟨[("tags", Val.list [Val.str " "])], "B"⟩) none
        = (.invalidItem "Tag to add must be a non-empty string.", none)
    ∧ remove_tag " " (.ok ⟨[("tags", Val.list [])], "B"⟩) none
        = (.invalidItem "Tag to remove must be a non-empty string.", none) :=
  ⟨by decide, rfl, rfl, rfl⟩

/-- C7 (amended): for every path and every non-BLANK string `x` (a string that
survives `strip()`, rather than merely non-empty): if `x` is already in the
resolved tags list then `add_tag` is a no-op success with no write and the
field unchanged; a successful `add_tag` followed by a second `add_tag` of the
same tag no-ops with the same final tag list (so twice = once); and if `x` is
absent then `remove_tag` is a no-op success with no write. -/
theorem C7_noop_idempotence (x : String) (hx : ¬ pyStrip x = "") (post : Post)
    (cur : List Val) (se se2 : Option String)
    (hres : resolveList (getMeta post.metadata "tags") = .ok cur) :
    (valMemStr cur x = true →
      add_tag x (.ok post) se
        = (.noChange ("Item \x27" ++ x ++ "\x27 already exists in \x27" ++ "tags"
              ++ "\x27. No changes made.") cur post.metadata, none))
    ∧ (valMemStr cur x = false →
      add_tag x (.ok post) none
        = (.ok "added" x (setMeta post.metadata "tags" (.list (cur ++ [Val.str x]))),
           some { post with
                    metadata := setMeta post.metadata "tags" (.list (cur ++ [Val.str x])) })
      ∧ add_tag x (.ok { post with
            metadata := setMeta post.metadata "tags" (.list (cur ++ [Val.str x])) }) se2
          = (.noChange ("Item \x27" ++ x ++ "\x27 already exists in \x27" ++ "tags"
                ++ "\x27. No changes made.") (cur ++ [Val.str x])
              (setMeta post.metadata "tags" (.list (cur ++ [Val.str x]))), none))
    ∧ (valMemStr cur x = false →
      remove_tag x (.ok post) se
        = (.noChange ("Item \x27" ++ x ++ "\x27 not found in \x27" ++ "tags"
              ++ "\x27. No changes made.") cur post.metadata, none)) := by
  refine ⟨?_, ?_, ?_⟩
  · intro hm
    simp only [add_tag, if_neg hx]
    simp [modify_list_field, hres, hm]
  · intro hm
    constructor
    · simp only [add_tag, if_neg hx]
      simp [modify_list_field, hres, hm, finishListSave]
    · have h2 : getMeta (setMeta post.metadata "tags" (.list (cur ++ [Val.str x]))) "tags"
          = some (.list (cur ++ [Val.str x])) := getMeta_setMeta_self _ _ _
      have h3 : valMemStr (cur ++ [Val.str x]) x = true := by
        simp [valMemStr, List.any_append, valEqStr]
      simp only [add_tag, if_neg hx]
      simp [modify_list_field, h2, resolveList, h3]
  · intro hm
    simp only [remove_tag, if_neg hx]
    simp [modify_list_field, hres, hm]

/-- C7 witness: on a post with `tags: [a, b]` — adding the present tag `a`
no-ops with no write; adding the absent tag `c` writes once and a second add
of `c` no-ops on the written post; removing the absent tag `c` no-ops. -/
theorem C7_witness :
    add_tag "a" (.ok wPost) none
      = (.noChange ("Item \x27" ++ "a" ++ "\x27 already exists in \x27" ++ "tags"
            ++ "\x27. No changes made.") [Val.str "a", Val.str "b"] wPost.metadata, none)
    ∧ (add_tag "c" (.ok wPost) none
        = (.ok "added" "c"
             (setMeta wPost.metadata "tags" (.list ([Val.str "a", Val.str "b"] ++ [Val.str "c"]))),
           some { wPost with
                    metadata := setMeta wPost.metadata "tags"
                      (.list ([Val.str "a", Val.str "b"] ++ [Val.str "c"])) })
       ∧ add_tag "c" (.ok { wPost with
             metadata := setMeta wPost.metadata "tags"
               (.list ([Val.str "a", Val.str "b"] ++ [Val.str "c"])) }) none
          = (.noChange ("Item \x27" ++ "c" ++ "\x27 already exists in \x27" ++ "tags"
                ++ "\x27. No changes made.") ([Val.str "a", Val.str "b"] ++ [Val.str "c"])
              (setMeta wPost.metadata "tags"
                (.list ([Val.str "a", Val.str "b"] ++ [Val.str "c"]))), none))
    ∧ remove_tag "c" (.ok wPost) none
      = (.noChange ("Item \x27" ++ "c" ++ "\x27 not found in \x27" ++ "tags"
            ++ "\x27. No changes made.") [Val.str "a", Val.str "b"] wPost.metadata, none) :=
  ⟨(C7_noop_idempotence "a" (by decide) wPost [Val.str "a", Val.str "b"] none none rfl).1 rfl,
   (C7_noop_idempotence "c" (by decide) wPost [Val.str "a", Val.str "b"] none none rfl).2.1 rfl,
   (C7_noop_idempotence "c" (by decide) wPost [Val.str "a", Val.str "b"] none none rfl).2.2 rfl⟩

/-- C1: Partial-failure isolation — in each of the four directory batch
operations, a file whose load fails is merely recorded (rename, validate) or
skipped with a console message (list-tags, find-posts), the scanned counter
still advances, and every aggregate over the remaining files is exactly what
it would be had the failing file not been enumerated: no load failure aborts
the batch or affects processing of the other files. -/
theorem C1_partial_failure_isolation (t o n fld fmt : String)
    (sp : String → String → Option String)
    (pre suf : List FileEntry) (bad : FileEntry) (e : String)
    (hbad : bad.load_res = .error e) :
    (list_tags_in_directory (pre ++ bad :: suf)).files_processed
        = (list_tags_in_directory (pre ++ suf)).files_processed + 1
    ∧ (list_tags_in_directory (pre ++ bad :: suf)).files_with_tags
        = (list_tags_in_directory (pre ++ suf)).files_with_tags
    ∧ (list_tags_in_directory (pre ++ bad :: suf)).tag_counts
        = (list_tags_in_directory (pre ++ suf)).tag_counts
    ∧ ("Skipping file (list_tags_in_directory) due to error: " ++ bad.path ++ " - " ++ e)
        ∈ (list_tags_in_directory (pre ++ bad :: suf)).printed
    ∧ (find_posts_walk t (pre ++ bad :: suf)).files_processed
        = (find_posts_walk t (pre ++ suf)).files_processed + 1
    ∧ (find_posts_walk t (pre ++ bad :: suf)).matching_files
        = (find_posts_walk t (pre ++ suf)).matching_files
    ∧ ("Skipping file (find_posts_by_tag) due to error: " ++ bad.path ++ " - " ++ e)
        ∈ (find_posts_walk t (pre ++ bad :: suf)).printed
    ∧ (rename_walk o n (pre ++ bad :: suf)).files_scanned
        = (rename_walk o n (pre ++ suf)).files_scanned + 1
    ∧ (rename_walk o n (pre ++ bad :: suf)).modified_files
        = (rename_walk o n (pre ++ suf)).modified_files
    ∧ (rename_walk o n (pre ++ bad :: suf)).writes = (rename_walk o n (pre ++ suf)).writes
    ∧ (bad.path, e) ∈ (rename_walk o n (pre ++ bad :: suf)).errors
    ∧ (validate_date_formats sp fld fmt (pre ++ bad :: suf)).files_scanned
        = (validate_date_formats sp fld fmt (pre ++ suf)).files_scanned + 1
    ∧ (validate_date_formats sp fld fmt (pre ++ bad :: suf)).files_with_field
        = (validate_date_formats sp fld fmt (pre ++ suf)).files_with_field
    ∧ (⟨bad.path, "N/A - Load Error", "File load error: " ++ e⟩ : InvalidEntry)
        ∈ (validate_date_formats sp fld fmt (pre ++ bad :: suf)).invalid_date_entries := by
  have hlt := list_tags_file_error bad e hbad
  have hfp := find_posts_file_error t bad e hbad
  have hrn := rename_file_error o n bad e hbad
  have hvd := validate_file_error sp fld fmt bad e hbad
  refine ⟨?_, ?_, ?_, ?_, ?_, ?_, ?_, ?_, ?_, ?_, ?_, ?_, ?_, ?_⟩ <;>
    simp [list_tags_in_directory, find_posts_walk, rename_walk, validate_date_formats,
      list_tags_foldl, find_posts_foldl, rename_foldl, validate_foldl,
      list_tags_step, find_posts_step, rename_step, validate_step,
      sumWith_append, collectAll_append, sumWith, collectAll,
      hlt, hfp, hrn, hvd, List.length_append] <;>
    omega

/-- C1 witness: the isolation theorem applied to a concrete two-file walk
(one good file, then one whose load fails with message `boom`). -/
theorem C1_witness :
    (list_tags_in_directory ([wGood] ++ wBad :: [])).files_processed
        = (list_tags_in_directory ([wGood] ++ [])).files_processed + 1
    ∧ (list_tags_in_directory ([wGood] ++ wBad :: [])).files_with_tags
        = (list_tags_in_directory ([wGood] ++ [])).files_with_tags
    ∧ (list_tags_in_directory ([wGood] ++ wBad :: [])).tag_counts
        = (list_tags_in_directory ([wGood] ++ [])).tag_counts
    ∧ ("Skipping file (list_tags_in_directory) due to error: " ++ wBad.path ++ " - " ++ "boom")
        ∈ (list_tags_in_directory ([wGood] ++ wBad :: [])).printed
    ∧ (find_posts_walk "a" ([wGood] ++ wBad :: [])).files_processed
        = (find_posts_walk "a" ([wGood] ++ [])).files_processed + 1
    ∧ (find_posts_walk "a" ([wGood] ++ wBad :: [])).matching_files
        = (find_posts_walk "a" ([wGood] ++ [])).matching_files
    ∧ ("Skipping file (find_posts_by_tag) due to error: " ++ wBad.path ++ " - " ++ "boom")
        ∈ (find_posts_walk "a" ([wGood] ++ wBad :: [])).printed
    ∧ (rename_walk "a" "c" ([wGood] ++ wBad :: [])).files_scanned
        = (rename_walk "a" "c" ([wGood] ++ [])).files_scanned + 1
    ∧ (rename_walk "a" "c" ([wGood] ++ wBad :: [])).modified_files
        = (rename_walk "a" "c" ([wGood] ++ [])).modified_files
    ∧ (rename_walk "a" "c" ([wGood] ++ wBad :: [])).writes
        = (rename_walk "a" "c" ([wGood] ++ [])).writes
    ∧ (wBad.path, "boom") ∈ (rename_walk "a" "c" ([wGood] ++ wBad :: [])).errors
    ∧ (validate_date_formats (fun _ _ => none) "date" "%Y-%m-%d"
          ([wGood] ++ wBad :: [])).files_scanned
        = (validate_date_formats (fun _ _ => none) "date" "%Y-%m-%d"
            ([wGood] ++ [])).files_scanned + 1
    ∧ (validate_date_formats (fun _ _ => none) "date" "%Y-%m-%d"
          ([wGood] ++ wBad :: [])).files_with_field
        = (validate_date_formats (fun _ _ => none) "date" "%Y-%m-%d"
            ([wGood] ++ [])).files_with_field
    ∧ (⟨wBad.path, "N/A - Load Error", "File load error: " ++ "boom"⟩ : InvalidEntry)
        ∈ (validate_date_formats (fun _ _ => none) "date" "%Y-%m-%d"
            ([wGood] ++ wBad :: [])).invalid_date_entries :=
  C1_partial_failure_isolation "a" "a" "c" "date" "%Y-%m-%d" (fun _ _ => none)
    [wGood] [] wBad "boom" rfl

/-- C9: Date validation — a scanned file whose target field is a string that
fails to parse is reported as an invalid entry preserving the raw string and
the parser error; a file without the field is neither counted among
files-with-field nor reported; and the operation never writes any file. -/
theorem C9_date_validation (sp : String → String → Option String) (fld fmt : String)
    (pre suf : List FileEntry) (f : FileEntry) (post : Post) (s e : String) :
    (f.load_res = .ok post → getMeta post.metadata fld = some (.str s) →
      sp s fmt = some e →
      (⟨f.path, s, e⟩ : InvalidEntry)
        ∈ (validate_date_formats sp fld fmt (pre ++ f :: suf)).invalid_date_entries)
    ∧ (f.load_res = .ok post → getMeta post.metadata fld = none →
      (validate_date_formats sp fld fmt (pre ++ f :: suf)).files_with_field
          = (validate_date_formats sp fld fmt (pre ++ suf)).files_with_field
      ∧ (validate_date_formats sp fld fmt (pre ++ f :: suf)).invalid_date_entries
          = (validate_date_formats sp fld fmt (pre ++ suf)).invalid_date_entries)
    ∧ (∀ files : List FileEntry, (validate_date_formats sp fld fmt files).writes = []) := by
  refine ⟨?_, ?_, ?_⟩
  · intro h1 h2 h3
    have hf : validate_file sp fld fmt f = ⟨1, [⟨f.path, s, e⟩], []⟩ := by
      simp [validate_file, h1, h2, h3]
    simp [validate_date_formats, validate_foldl, collectAll_append, collectAll,
      validate_step, hf]
  · intro h1 h2
    have hf : validate_file sp fld fmt f = ⟨0, [], []⟩ := by
      simp [validate_file, h1, h2]
    constructor <;>
      simp [validate_date_formats, validate_foldl, collectAll_append, collectAll,
        sumWith_append, sumWith, validate_step, hf]
  · intro files
    simp [validate_date_formats, validate_foldl]

/-- C9 witness: a file with `date: "2023-13-40"` failing the parse oracle is
reported with the raw string; a file without a `date` field changes neither
the field count nor the entries; and a sample walk produces no writes. -/
theorem C9_witness :
    (⟨"/c/baddate.md", "2023-13-40", "invalid"⟩ : InvalidEntry)
        ∈ (validate_date_formats (fun _ _ => some "invalid") "date" "%Y-%m-%d"
            ([] ++ ⟨"/c/baddate.md",
                .ok ⟨[("date", Val.str "2023-13-40")], "B"⟩, none⟩ :: [])).invalid_date_entries
    ∧ ((validate_date_formats (fun _ _ => some "invalid") "date" "%Y-%m-%d"
          ([] ++ wGood :: [wBad])).files_with_field
        = (validate_date_formats (fun _ _ => some "invalid") "date" "%Y-%m-%d"
            ([] ++ [wBad])).files_with_field
      ∧ (validate_date_formats (fun _ _ => some "invalid") "date" "%Y-%m-%d"
          ([] ++ wGood :: [wBad])).invalid_date_entries
        = (validate_date_formats (fun _ _ => some "invalid") "date" "%Y-%m-%d"
            ([] ++ [wBad])).invalid_date_entries)
    ∧ (validate_date_formats (fun _ _ => some "invalid") "date" "%Y-%m-%d"
        [wGood, wBad]).writes = [] :=
  ⟨(C9_date_validation (fun _ _ => some "invalid") "date" "%Y-%m-%d" [] []
      ⟨"/c/baddate.md", .ok ⟨[("date", Val.str "2023-13-40")], "B"⟩, none⟩
      ⟨[("date", Val.str "2023-13-40")], "B"⟩ "2023-13-40" "invalid").1 rfl rfl rfl,
   (C9_date_validation (fun _ _ => some "invalid") "date" "%Y-%m-%d" [] [wBad]
      wGood wPost "2023-13-40" "invalid").2.1 rfl rfl,
   (C9_date_validation (fun _ _ => some "invalid") "date" "%Y-%m-%d" [] []
      wGood wPost "2023-13-40" "invalid").2.2 [wGood, wBad]⟩

/-- C10: in `validate_date_formats` a file whose load fails is still counted
in `files_scanned` (every enumerated file is) and is additionally recorded in
`invalid_date_entries` with placeholder value `N/A - Load Error` and a
load-error message, although its date field was never examined. -/
theorem C10_load_error_counted (sp : String → String → Option String)
    (fld fmt : String) (pre suf : List FileEntry) (bad : FileEntry) (e : String)
    (hbad : bad.load_res = .error e) :
    (validate_date_formats sp fld fmt (pre ++ bad :: suf)).files_scanned
        = (pre ++ bad :: suf).length
    ∧ (⟨bad.path, "N/A - Load Error", "File load error: " ++ e⟩ : InvalidEntry)
        ∈ (validate_date_formats sp fld fmt (pre ++ bad :: suf)).invalid_date_entries := by
  have hvd := validate_file_error sp fld fmt bad e hbad
  constructor
  · simp [validate_date_formats, validate_foldl, validate_step]
    omega
  · simp [validate_date_formats, validate_foldl, collectAll_append, collectAll,
      validate_step, hvd]

/-- C10 witness: the theorem applied to a concrete walk with one good file and
one failing file. -/
theorem C10_witness :
    (validate_date_formats (fun _ _ => none) "date" "%Y-%m-%d"
        ([wGood] ++ wBad :: [])).files_scanned = ([wGood] ++ wBad :: []).length
    ∧ (⟨wBad.path, "N/A - Load Error", "File load error: " ++ "boom"⟩ : InvalidEntry)
        ∈ (validate_date_formats (fun _ _ => none) "date" "%Y-%m-%d"
            ([wGood] ++ wBad :: [])).invalid_date_entries :=
  C10_load_error_counted (fun _ _ => none) "date" "%Y-%m-%d" [wGood] [] wBad "boom" rfl

/-- C2 counterexample: a load failure in `list_tags_in_directory` and in
`find_posts_by_tag` is only printed to the console and the file skipped: the
structured result of either call contains no per-file error entry of any kind
(its only fields are the counters, the aggregate, and nothing error-shaped). -/
theorem C2_counterexample :
    list_tags_in_directory [wBad]
      = { files_processed := 1, files_with_tags := 0, tag_counts := [],
          printed := ["Skipping file (list_tags_in_directory) due to error: "
            ++ "/c/bad.md" ++ " - " ++ "boom"] }
    ∧ find_posts_walk "a" [wBad]
      = { files_processed := 1, matching_files := [],
          printed := ["Skipping file (find_posts_by_tag) due to error: "
            ++ "/c/bad.md" ++ " - " ++ "boom"] } :=
  ⟨rfl, rfl⟩

/-- C2 (amended): per-file load and save errors never raise out of a batch
call; `rename_tag_in_directory` attaches them to the file's entry in its
`errors` list, and `validate_date_formats` records load failures as that
file's invalid entry — but `list_tags_in_directory` and `find_posts_by_tag`
only print the error to the console and skip the file, attaching nothing to
their structured results. -/
theorem C2_error_capture (t o n fld fmt : String) (sp : String → String → Option String)
    (pre suf : List FileEntry) (f : FileEntry) (e : String) (post : Post) (l : List Val) :
    (f.load_res = .error e → (f.path, e) ∈ (rename_walk o n (pre ++ f :: suf)).errors)
    ∧ (f.load_res = .ok post → getMeta post.metadata "tags" = some (.list l) →
        valMemStr l o = true → f.save_err = some e →
      (f.path, e) ∈ (rename_walk o n (pre ++ f :: suf)).errors)
    ∧ (f.load_res = .error e →
      (⟨f.path, "N/A - Load Error", "File load error: " ++ e⟩ : InvalidEntry)
        ∈ (validate_date_formats sp fld fmt (pre ++ f :: suf)).invalid_date_entries)
    ∧ (f.load_res = .error e →
      (list_tags_in_directory (pre ++ f :: suf)).tag_counts
          = (list_tags_in_directory (pre ++ suf)).tag_counts
      ∧ ("Skipping file (list_tags_in_directory) due to error: " ++ f.path ++ " - " ++ e)
          ∈ (list_tags_in_directory (pre ++ f :: suf)).printed)
    ∧ (f.load_res = .error e →
      (find_posts_walk t (pre ++ f :: suf)).matching_files
          = (find_posts_walk t (pre ++ suf)).matching_files
      ∧ ("Skipping file (find_posts_by_tag) due to error: " ++ f.path ++ " - " ++ e)
          ∈ (find_posts_walk t (pre ++ f :: suf)).printed) := by
  refine ⟨?_, ?_, ?_, ?_, ?_⟩
  · intro h
    have hf := rename_file_error o n f e h
    simp [rename_walk, rename_foldl, collectAll_append, collectAll, rename_step, hf]
  · intro h1 h2 h3 h4
    have hf : rename_file o n f
        = ⟨[], [(f.path, e)], ["Error saving file (rename_tag): " ++ f.path], []⟩ := by
      simp [rename_file, h1, h2, h3, h4]
    simp [rename_walk, rename_foldl, collectAll_append, collectAll, rename_step, hf]
  · intro h
    have hf := validate_file_error sp fld fmt f e h
    simp [validate_date_formats, validate_foldl, collectAll_append, collectAll,
      validate_step, hf]
  · intro h
    have hf := list_tags_file_error f e h
    constructor <;>
      simp [list_tags_in_directory, list_tags_foldl, collectAll_append, collectAll,
        list_tags_step, hf]
  · intro h
    have hf := find_posts_file_error t f e h
    constructor <;>
      simp [find_posts_walk, find_posts_foldl, collectAll_append, collectAll,
        find_posts_step, hf]

/-- C2 witness: the amended theorem at a concrete load failure and a concrete
save failure (a post with `tags: [a, b]` renamed `a`→`c` on a file whose save
fails with `disk full`). -/
theorem C2_witness :
    ((wBad.path, "boom") ∈ (rename_walk "a" "c" ([] ++ wBad :: [])).errors)
    ∧ ((wSaveFail.path, "disk full")
        ∈ (rename_walk "a" "c" ([] ++ wSaveFail :: [])).errors)
    ∧ ((⟨wBad.path, "N/A - Load Error", "File load error: " ++ "boom"⟩ : InvalidEntry)
        ∈ (validate_date_formats (fun _ _ => none) "date" "%Y-%m-%d"
            ([] ++ wBad :: [])).invalid_date_entries)
    ∧ ((list_tags_in_directory ([] ++ wBad :: [])).tag_counts
          = (list_tags_in_directory ([] ++ [])).tag_counts
      ∧ ("Skipping file (list_tags_in_directory) due to error: " ++ wBad.path ++ " - " ++ "boom")
          ∈ (list_tags_in_directory ([] ++ wBad :: [])).printed)
    ∧ ((find_posts_walk "a" ([] ++ wBad :: [])).matching_files
          = (find_posts_walk "a" ([] ++ [])).matching_files
      ∧ ("Skipping file (find_posts_by_tag) due to error: " ++ wBad.path ++ " - " ++ "boom")
          ∈ (find_posts_walk "a" ([] ++ wBad :: [])).printed) :=
  ⟨(C2_error_capture "a" "a" "c" "date" "%Y-%m-%d" (fun _ _ => none) [] [] wBad "boom"
      wPost []).1 rfl,
   (C2_error_capture "a" "a" "c" "date" "%Y-%m-%d" (fun _ _ => none) [] [] wSaveFail
      "disk full" wPost [Val.str "a", Val.str "b"]).2.1 rfl rfl rfl rfl,
   (C2_error_capture "a" "a" "c" "date" "%Y-%m-%d" (fun _ _ => none) [] [] wBad "boom"
      wPost []).2.2.1 rfl,
   (C2_error_capture "a" "a" "c" "date" "%Y-%m-%d" (fun _ _ => none) [] [] wBad "boom"
      wPost []).2.2.2.1 rfl,
   (C2_error_capture "a" "a" "c" "date" "%Y-%m-%d" (fun _ _ => none) [] [] wBad "boom"
      wPost []).2.2.2.2 rfl⟩

/-- C3 counterexample: a document with scalar `tags: "solo"` does NOT match
`find_posts_by_tag "solo"` — the matcher only accepts a list-valued `tags`
field, so the scalar string is not treated as a one-element list there. -/
theorem C3_counterexample :
    (find_posts_walk "solo"
        [⟨"/c/solo.md", .ok ⟨[("tags", Val.str "solo")], "B"⟩, none⟩]).matching_files = []
    ∧ find_posts_by_tag "solo"
        [⟨"/c/solo.md", .ok ⟨[("tags", Val.str "solo")], "B"⟩, none⟩]
      = .ok { files_processed := 1, matching_files := [], printed := [] } :=
  ⟨rfl, rfl⟩

/-- C3 (amended): `find_posts_by_tag` matches only documents whose `tags`
field is a list containing the tag — a scalar string `tags` value never
matches, whatever it equals; `rename_tag_in_directory`, by contrast, does
tolerate the scalar shape: when the scalar equals `oldTag` it replaces the
field with the one-element list `[newTag]`, writes the file, and records it
as modified. -/
theorem C3_scalar_tags (t o n : String) (pre suf : List FileEntry) (f : FileEntry)
    (post : Post) (s : String)
    (ho : ¬ pyStrip o = "") (hn : ¬ pyStrip n = "") (hon : ¬ o = n) :
    (f.load_res = .ok post → getMeta post.metadata "tags" = some (.str s) →
      (find_posts_walk t (pre ++ f :: suf)).matching_files
        = (find_posts_walk t (pre ++ suf)).matching_files)
    ∧ (f.load_res = .ok post → getMeta post.metadata "tags" = some (.str o) →
        f.save_err = none →
      rename_tag_in_directory o n (pre ++ f :: suf)
          = .done (rename_walk o n (pre ++ f :: suf))
      ∧ f.path ∈ (rename_walk o n (pre ++ f :: suf)).modified_files
      ∧ (f.path, { post with metadata := setMeta post.metadata "tags" (.list [Val.str n]) })
          ∈ (rename_walk o n (pre ++ f :: suf)).writes) := by
  constructor
  · intro h1 h2
    have hf : find_posts_file t f = ⟨[], []⟩ := by
      simp [find_posts_file, h1, h2]
    simp [find_posts_walk, find_posts_foldl, collectAll_append, collectAll,
      find_posts_step, hf]
  · intro h1 h2 h3
    have hf : rename_file o n f
        = ⟨[f.path], [], [],
           [(f.path,
             { post with metadata := setMeta post.metadata "tags" (.list [Val.str n]) })]⟩ := by
      simp [rename_file, h1, h2, h3, strContains_self, pyStr, valEqStr]
    refine ⟨?_, ?_, ?_⟩
    · simp [rename_tag_in_directory, if_neg ho, if_neg hn, if_neg hon]
    · simp [rename_walk, rename_foldl, collectAll_append, collectAll, rename_step, hf]
    · simp [rename_walk, rename_foldl, collectAll_append, collectAll, rename_step, hf]

/-- C3 witness: scalar `tags: "solo"` — the find walk over that sole document
matches nothing, while renaming `solo`→`c` rewrites the field to `["c"]`,
records the path as modified, and writes the file. -/
theorem C3_witness :
    ((find_posts_walk "solo"
        ([] ++ ⟨"/c/solo.md", .ok ⟨[("tags", Val.str "solo")], "B"⟩, none⟩ :: [])).matching_files
      = (find_posts_walk "solo" ([] ++ [])).matching_files)
    ∧ (rename_tag_in_directory "solo" "c"
          ([] ++ ⟨"/c/solo.md", .ok ⟨[("tags", Val.str "solo")], "B"⟩, none⟩ :: [])
        = .done (rename_walk "solo" "c"
            ([] ++ ⟨"/c/solo.md", .ok ⟨[("tags", Val.str "solo")], "B"⟩, none⟩ :: []))
      ∧ "/c/solo.md" ∈ (rename_walk "solo" "c"
            ([] ++ ⟨"/c/solo.md", .ok ⟨[("tags", Val.str "solo")], "B"⟩, none⟩ :: [])).modified_files
      ∧ ("/c/solo.md",
          { (⟨[("tags", Val.str "solo")], "B"⟩ : Post) with
              metadata := setMeta [("tags", Val.str "solo")] "tags" (.list [Val.str "c"]) })
          ∈ (rename_walk "solo" "c"
              ([] ++ ⟨"/c/solo.md", .ok ⟨[("tags", Val.str "solo")], "B"⟩, none⟩ :: [])).writes) :=
  ⟨(C3_scalar_tags "solo" "solo" "c" [] []
      ⟨"/c/solo.md", .ok ⟨[("tags", Val.str "solo")], "B"⟩, none⟩
      ⟨[("tags", Val.str "solo")], "B"⟩ "solo" (by decide) (by decide) (by decide)).1 rfl rfl,
   (C3_scalar_tags "solo" "solo" "c" [] []
      ⟨"/c/solo.md", .ok ⟨[("tags", Val.str "solo")], "B"⟩, none⟩
      ⟨[("tags", Val.str "solo")], "B"⟩ "solo" (by decide) (by decide) (by decide)).2 rfl rfl rfl⟩

/-- C5 counterexample: on `tags: [c, c, a]`, renaming `a`→`c` writes
`tags: [c, c]` — the new tag is kept with BOTH its pre-existing occurrences,
so the result does not contain exactly one occurrence of the new tag. -/
theorem C5_counterexample :
    (rename_walk "a" "c"
        [⟨"/c/dup.md",
          .ok ⟨[("tags", Val.list [Val.str "c", Val.str "c", Val.str "a"])], "B"⟩,
          none⟩]).writes
      = [("/c/dup.md", ⟨[("tags", Val.list [Val.str "c", Val.str "c"])], "B"⟩)]
    ∧ countValStr [Val.str "c", Val.str "c"] "c" = 2 :=
  ⟨rfl, rfl⟩

/-- C5 (amended): for every document whose `tags` list contains `oldTag`,
after `rename_tag_in_directory` the written tags list contains no occurrence
of `oldTag` and all other entries unchanged; `newTag` is appended once when it
was absent, and otherwise its pre-existing occurrences are kept as they were
(so it ends with `max(previous count, 1)` occurrences — exactly one only when
it occurred at most once before); the file is written and recorded modified. -/
theorem C5_rename_semantics (o n : String) (pre suf : List FileEntry) (f : FileEntry)
    (post : Post) (l : List Val) (hon : ¬ o = n)
    (h1 : f.load_res = .ok post) (h2 : getMeta post.metadata "tags" = some (.list l))
    (hm : valMemStr l o = true) (h3 : f.save_err = none) :
    f.path ∈ (rename_walk o n (pre ++ f :: suf)).modified_files
    ∧ (f.path, { post with metadata := setMeta post.metadata "tags" (.list (renameTags o n l)) })
        ∈ (rename_walk o n (pre ++ f :: suf)).writes
    ∧ countValStr (renameTags o n l) o = 0
    ∧ countValStr (renameTags o n l) n = max (countValStr l n) 1
    ∧ ∀ u, ¬ u = o → ¬ u = n → countValStr (renameTags o n l) u = countValStr l u := by
  have hno : valEqStr (Val.str n) o = false := by
    have hb : (n == o) = false := beq_eq_false_iff_ne.mpr (Ne.symm hon)
    simpa [valEqStr] using hb
  have hkeep_n : countValStr (l.filter (fun t => !valEqStr t o)) n = countValStr l n :=
    countValStr_filter_keep l _ n (by simp [hno])
  have hf : rename_file o n f
      = ⟨[f.path], [], [],
         [(f.path,
           { post with metadata := setMeta post.metadata "tags" (.list (renameTags o n l)) })]⟩ := by
    simp [rename_file, h1, h2, hm, h3, renameTags]
  refine ⟨?_, ?_, ?_, ?_, ?_⟩
  · simp [rename_walk, rename_foldl, collectAll_append, collectAll, rename_step, hf]
  · simp [rename_walk, rename_foldl, collectAll_append, collectAll, rename_step, hf]
  · by_cases hmem : valMemStr (l.filter (fun t => !valEqStr t o)) n = true
    · simp [renameTags, hmem, countValStr_filter_out]
    · simp [renameTags, hmem, countValStr_append, countValStr_filter_out,
        countValStr, List.filter, hno]
  · by_cases hmem : valMemStr (l.filter (fun t => !valEqStr t o)) n = true
    · have hpos : 0 < countValStr (l.filter (fun t => !valEqStr t o)) n :=
        (countValStr_pos_iff _ n).mp hmem
      rw [hkeep_n] at hpos
      simp [renameTags, hmem, hkeep_n]
      omega
    · have hnpos : ¬ 0 < countValStr (l.filter (fun t => !valEqStr t o)) n :=
        fun hp => hmem ((countValStr_pos_iff _ n).mpr hp)
      have hzero : countValStr (l.filter (fun t => !valEqStr t o)) n = 0 := by omega
      have hzl : countValStr l n = 0 := by rw [← hkeep_n]; exact hzero
      have hone : countValStr [Val.str n] n = 1 := by
        simp [countValStr, List.filter, valEqStr]
      simp [renameTags, hmem, countValStr_append, hzero, hzl, hone]
  · intro u hu hun
    have huo : valEqStr (Val.str u) o = false := by
      have hb : (u == o) = false := beq_eq_false_iff_ne.mpr hu
      simpa [valEqStr] using hb
    have hkeep_u : countValStr (l.filter (fun t => !valEqStr t o)) u = countValStr l u :=
      countValStr_filter_keep l _ u (by simp [huo])
    by_cases hmem : valMemStr (l.filter (fun t => !valEqStr t o)) n = true
    · simp [renameTags, hmem, hkeep_u]
    · have hsing : countValStr [Val.str n] u = 0 := by
        have hb : (n == u) = false := beq_eq_false_iff_ne.mpr (Ne.symm hun)
        simp [countValStr, List.filter, valEqStr, hb]
      simp [renameTags, hmem, countValStr_append, hkeep_u, hsing]

/-- C5 witness: renaming `a`→`c` on a document with `tags: [a, b, a]` — both
`a`s removed, one `c` appended, `b` untouched, the path recorded modified and
the rewritten post written. -/
theorem C5_witness :
    "/c/aba.md" ∈ (rename_walk "a" "c"
        ([] ++ ⟨"/c/aba.md",
            .ok ⟨[("tags", Val.list [Val.str "a", Val.str "b", Val.str "a"])], "B"⟩,
            none⟩ :: [])).modified_files
    ∧ ("/c/aba.md",
        { (⟨[("tags", Val.list [Val.str "a", Val.str "b", Val.str "a"])], "B"⟩ : Post) with
            metadata := setMeta [("tags", Val.list [Val.str "a", Val.str "b", Val.str "a"])]
              "tags" (.list (renameTags "a" "c" [Val.str "a", Val.str "b", Val.str "a"])) })
        ∈ (rename_walk "a" "c"
            ([] ++ ⟨"/c/aba.md",
                .ok ⟨[("tags", Val.list [Val.str "a", Val.str "b", Val.str "a"])], "B"⟩,
                none⟩ :: [])).writes
    ∧ countValStr (renameTags "a" "c" [Val.str "a", Val.str "b", Val.str "a"]) "a" = 0
    ∧ countValStr (renameTags "a" "c" [Val.str "a", Val.str "b", Val.str "a"]) "c"
        = max (countValStr [Val.str "a", Val.str "b", Val.str "a"] "c") 1
    ∧ ∀ u, ¬ u = "a" → ¬ u = "c" →
        countValStr (renameTags "a" "c" [Val.str "a", Val.str "b", Val.str "a"]) u
          = countValStr [Val.str "a", Val.str "b", Val.str "a"] u :=
  C5_rename_semantics "a" "c" [] []
    ⟨"/c/aba.md", .ok ⟨[("tags", Val.list [Val.str "a", Val.str "b", Val.str "a"])], "B"⟩, none⟩
    ⟨[("tags", Val.list [Val.str "a", Val.str "b", Val.str "a"])], "B"⟩
    [Val.str "a", Val.str "b", Val.str "a"] (by decide) rfl rfl rfl rfl
